import Mathlib

/-!
Verification of the scoring engine and idempotent-save rule of the
business-plan simulator (source: business_plan_simulator_full.py).

Modelling conventions:
* Python floats are modelled as rationals (`ℚ`).  None of the properties
  below depends on binary floating-point artefacts; the one rounding step
  (`_canonicalize_number`) is modelled as exact rounding to the nearest
  multiple of 10⁻⁶ (exact midpoints round up here while Python rounds them
  to even; no statement below sits on an exact midpoint).
* A candidate dictionary is a list of (field, value) pairs; `dictGet`
  mirrors `dict.get(k, "")` from the source.
* `_make_signature` in the source serialises the canonical payload
  (sorted keys, compact JSON) and hashes it with SHA-256.  Both steps are
  deterministic and injective on the payloads considered (serialisation is
  injective; SHA-256 is collision-resistant), so signature equality
  coincides with equality of the canonical payload; we model the signature
  by that canonical payload: the sorted list of (field, canonical value)
  pairs.
-/

/-- A value stored in the candidate dictionary: Python strings or numbers.
(`_canonicalize_number` in the source would also coerce a string that
parses as a float; every string-valued field quantified over below is
non-numeric text, for which `float(x)` raises and the value passes
through unchanged.) -/
inductive FieldVal
  | str (s : String)
  | num (q : ℚ)
deriving DecidableEq, Repr

/-- `candidate_dict`: an association list of named fields (first binding
wins; all records built by the program have pairwise distinct keys). -/
abbrev Record := List (String × FieldVal)

/-- `candidate_dict.get(k, "")`. -/
def dictGet (r : Record) (k : String) : FieldVal :=
  match r.find? (fun p => p.1 == k) with
  | some p => p.2
  | none => .str ""

/-- Replace the value of field `k` (used to express records that differ in
a single field). -/
def updateField (r : Record) (k : String) (v : FieldVal) : Record :=
  r.map (fun p => if p.1 = k then (k, v) else p)

/-- Rounding to 6 decimal places, the effect of `float(f"{float(x):.6f}")`
in `_canonicalize_number`: round to the nearest multiple of 10⁻⁶. -/
def round6 (q : ℚ) : ℚ := (⌊q * 1000000 + 1 / 2⌋ : ℚ) / 1000000

/-- `_canonicalize_number`: numbers are rounded to 6 decimal places to
avoid float jitter; anything else is returned unchanged. -/
def _canonicalize_number : FieldVal → FieldVal
  | .num q => .num (round6 q)
  | .str s => .str s

/-- The fixed field list of `_make_signature`, in source order. -/
def sigFields : List String :=
  ["Candidate Name", "Candidate Email", "Current Role", "Candidate Location",
   "Current Employer", "Current Market", "Currency", "Base Salary", "Last Bonus",
   "Current Number of Clients", "Current AUM (M CHF)",
   "NNM Year 1 (M CHF)", "NNM Year 2 (M CHF)", "NNM Year 3 (M CHF)",
   "Revenue Year 1 (CHF)", "Revenue Year 2 (CHF)", "Revenue Year 3 (CHF)",
   "Total Revenue 3Y (CHF)", "Profit Margin (%)", "Total Profit 3Y (CHF)"]

/-- The same fields in the order produced by `json.dumps(..., sort_keys=True)`
(ascending code-point order; certified against `sigFields` below). -/
def sigFieldsSorted : List String :=
  ["Base Salary", "Candidate Email", "Candidate Location", "Candidate Name",
   "Currency", "Current AUM (M CHF)", "Current Employer", "Current Market",
   "Current Number of Clients", "Current Role", "Last Bonus",
   "NNM Year 1 (M CHF)", "NNM Year 2 (M CHF)", "NNM Year 3 (M CHF)",
   "Profit Margin (%)", "Revenue Year 1 (CHF)", "Revenue Year 2 (CHF)",
   "Revenue Year 3 (CHF)", "Total Profit 3Y (CHF)", "Total Revenue 3Y (CHF)"]

/-- `_make_signature`: the canonical payload
`{k: _canonicalize_number(d.get(k, "")) for k in fields}`, keys in sorted
order.  (The source then serialises this payload and SHA-256-hashes the
serialisation; see the module comment — signature equality is payload
equality.) -/
def _make_signature (candidate_dict : Record) : List (String × FieldVal) :=
  sigFieldsSorted.map (fun k => (k, _canonicalize_number (dictGet candidate_dict k)))

/-! ## Scoring engine (module-level block, lines 884-970 of the source) -/

/-- The reason messages pushed to `reasons_pos`, `reasons_neg` and `flags`,
as tagged data: each constructor stands for one message of the source, and
carries the values the source interpolates into the f-string. -/
inductive Reason
  | expGE7                             -- "Experience ≥7 years in market"
  | exp6                               -- "Experience 6 years"
  | expLow                             -- "Experience <6 years"
  | aumCH250                           -- "AUM meets CH 250M target"
  | aumGEMin (aum_min : ℚ)             -- f"AUM ≥ {aum_min}M"
  | aumShortfall (shortfall : ℚ)       -- f"AUM shortfall: {max(0.0, aum_min - current_assets):.0f}M"
  | compHunter                         -- "Comp indicates hunter profile"
  | compLow                            -- "Low comp indicates inherited/low portability"
  | compNeutral                        -- "Comp neutral – clarify origin of book"
  | roaExcellent (avg : ℚ)             -- f"Avg ROA {avg_roa:.2f}% (excellent)"
  | roaAcceptable (avg : ℚ)            -- f"Avg ROA {avg_roa:.2f}% (acceptable)"
  | roaLow (avg : ℚ)                   -- f"Avg ROA {avg_roa:.2f}% is low"
  | clientsNotProvided                 -- "Clients not provided"
  | clientsHigh (n : ℕ)                -- f"High client count ({n}) – likely lower segment"
  | clientsOK                          -- "Client load appropriate (≤80)"
  | prospectsBothZero                  -- "Prospects & NNM Y1 both zero"
  | prospectsConsistent (best nnm : ℚ) -- f"Prospects Best NNM {best}M ≈ NNM Y1 {nnm}M"
  | prospectsDeviation (best nnm : ℚ)  -- f"Prospects {best}M vs NNM Y1 {nnm}M (> 10% dev)"
deriving DecidableEq, Repr

/-- The contribution of one criterion: a score delta plus the messages it
appends to the three lists. -/
structure CritOut where
  delta : Int := 0
  pos : List Reason := []
  neg : List Reason := []
  flag : List Reason := []
deriving DecidableEq, Repr

/-- Lines 889-893: both branches assign 200.0 (the recruiter override on
line 985 happens after the scoring block has run). -/
def aum_min (current_market : String) : ℚ :=
  if current_market = "CH Onshore" then 200 else 200

/-- Experience criterion (lines 899-904). -/
def experienceCrit (years_experience : ℕ) : CritOut :=
  if years_experience ≥ 7 then { delta := 2, pos := [.expGE7] }
  else if years_experience ≥ 6 then { delta := 1, pos := [.exp6] }
  else { neg := [.expLow] }

/-- AUM criterion (lines 906-913).  Both inner branches add 2; the CH
Onshore 250M test only selects the message. -/
def aumCrit (current_market : String) (current_assets : ℚ) : CritOut :=
  if current_assets ≥ aum_min current_market then
    if current_market = "CH Onshore" ∧ current_assets ≥ 250 then
      { delta := 2, pos := [.aumCH250] }
    else
      { delta := 2, pos := [.aumGEMin (aum_min current_market)] }
  else
    { neg := [.aumShortfall (max 0 (aum_min current_market - current_assets))] }

/-- Compensation criterion (lines 915-921). -/
def compCrit (base_salary last_bonus : ℚ) : CritOut :=
  if base_salary > 200000 ∧ last_bonus > 100000 then
    { delta := 2, pos := [.compHunter] }
  else if base_salary ≤ 150000 ∧ last_bonus ≤ 50000 then
    { delta := -1, neg := [.compLow] }
  else
    { flag := [.compNeutral] }

/-- ROA criterion (lines 923-929), applied to `avg_roa`. -/
def roaCrit (avg_roa : ℚ) : CritOut :=
  if avg_roa ≥ 1 then { delta := 2, pos := [.roaExcellent avg_roa] }
  else if avg_roa ≥ 8 / 10 then { delta := 1, pos := [.roaAcceptable avg_roa] }
  else { neg := [.roaLow avg_roa] }

/-- Client-load criterion (lines 931-937). -/
def clientsCrit (current_number_clients : ℕ) : CritOut :=
  if current_number_clients = 0 then { flag := [.clientsNotProvided] }
  else if current_number_clients > 80 then
    { neg := [.clientsHigh current_number_clients] }
  else { delta := 1, pos := [.clientsOK] }

/-- Prospect-consistency criterion (lines 939-958); `tolerance_pct` is the
hard-coded 10 of line 946 (the recruiter slider on line 982 runs after the
scoring block). -/
def tolerance_pct : ℚ := 10

def prospectsCrit (nnm_y1_val best_sum : ℚ) : CritOut :=
  if nnm_y1_val = 0 ∧ best_sum = 0 then
    { flag := [.prospectsBothZero] }
  else if |best_sum - nnm_y1_val| ≤ (tolerance_pct / 100) * max nnm_y1_val (1 / 1000000000) then
    { delta := 1, pos := [.prospectsConsistent best_sum nnm_y1_val] }
  else
    { neg := [.prospectsDeviation best_sum nnm_y1_val] }

/-- The candidate data read by the scoring block and `_build_data_dict`
(the module-level form variables of the source). -/
structure Candidate where
  candidate_name : String
  candidate_email : String
  current_role : String
  candidate_location : String
  current_employer : String
  current_market : String
  currency : String
  years_experience : ℕ
  base_salary : ℚ
  last_bonus : ℚ
  current_number_clients : ℕ
  current_assets : ℚ
  nnm_y1 : ℚ
  nnm_y2 : ℚ
  nnm_y3 : ℚ
  roa_y1 : ℚ
  roa_y2 : ℚ
  roa_y3 : ℚ
deriving DecidableEq, Repr

/-- Line 886: `avg_roa = (roa_y1 + roa_y2 + roa_y3) / 3.0`. -/
def avg_roa (c : Candidate) : ℚ := (c.roa_y1 + c.roa_y2 + c.roa_y3) / 3

/-- Line 945: the sum of the Best NNM column of the prospect table
(0.0 for an empty table, as `List.sum [] = 0`). -/
def best_sum (prospects_best : List ℚ) : ℚ := prospects_best.sum

/-- The six criteria in source order. -/
def critList (c : Candidate) (prospects_best : List ℚ) : List CritOut :=
  [experienceCrit c.years_experience,
   aumCrit c.current_market c.current_assets,
   compCrit c.base_salary c.last_bonus,
   roaCrit (avg_roa c),
   clientsCrit c.current_number_clients,
   prospectsCrit c.nnm_y1 (best_sum prospects_best)]

/-- The result of the scoring block: `score`, `reasons_pos`, `reasons_neg`,
`flags` after all six criteria have run. -/
structure ScoreAcc where
  score : Int
  reasons_pos : List Reason
  reasons_neg : List Reason
  flags : List Reason
deriving DecidableEq, Repr

/-- The scoring block (lines 895-958): deltas are summed and messages
concatenated in evaluation order, which is equivalent to the sequential
`score += ...` / `append` statements of the source. -/
def computeScore (c : Candidate) (prospects_best : List ℚ) : ScoreAcc :=
  { score := ((critList c prospects_best).map CritOut.delta).sum
    reasons_pos := ((critList c prospects_best).map CritOut.pos).flatten
    reasons_neg := ((critList c prospects_best).map CritOut.neg).flatten
    flags := ((critList c prospects_best).map CritOut.flag).flatten }

/-- The verdict block (lines 960-966). -/
def verdictOf (score : Int) : String :=
  if score ≥ 7 then "🟢 Strong Candidate"
  else if score ≥ 4 then "🟡 Medium Potential"
  else "🔴 Weak Candidate"

/-! ## Building the saved record (`_build_data_dict`, lines 1026-1061) -/

/-- `nnm * roa / 100 * 1_000_000`. -/
def revenueY (nnm roa : ℚ) : ℚ := nnm * roa / 100 * 1000000

/-- `_build_data_dict`: the dictionary that is saved and signed.  `now`
stands for `datetime.now().strftime(...)`; `score` and `verdict` are the
scoring-block outputs read back from session state. -/
def _build_data_dict (c : Candidate) (now : String) (score : Int) (verdict : String) : Record :=
  let total_rev_3y : ℚ :=
    ((c.nnm_y1 * c.roa_y1) + (c.nnm_y2 * c.roa_y2) + (c.nnm_y3 * c.roa_y3)) / 100 * 1000000
  let profit_margin_pct : ℚ :=
    if total_rev_3y > 0 then
      ((total_rev_3y - (c.base_salary * (5 / 4) * 3)) / total_rev_3y) * 100
    else 0
  let total_profit_3y : ℚ :=
    (revenueY c.nnm_y1 c.roa_y1 + revenueY c.nnm_y2 c.roa_y2 + revenueY c.nnm_y3 c.roa_y3)
      - (c.base_salary * (5 / 4) * 3)
  [("Timestamp", .str now),
   ("Candidate Name", .str c.candidate_name),
   ("Candidate Email", .str c.candidate_email),
   ("Current Role", .str c.current_role),
   ("Candidate Location", .str c.candidate_location),
   ("Current Employer", .str c.current_employer),
   ("Current Market", .str c.current_market),
   ("Currency", .str c.currency),
   ("Base Salary", .num c.base_salary),
   ("Last Bonus", .num c.last_bonus),
   ("Current Number of Clients", .num c.current_number_clients),
   ("Current AUM (M CHF)", .num c.current_assets),
   ("NNM Year 1 (M CHF)", .num c.nnm_y1),
   ("NNM Year 2 (M CHF)", .num c.nnm_y2),
   ("NNM Year 3 (M CHF)", .num c.nnm_y3),
   ("Revenue Year 1 (CHF)", .num (revenueY c.nnm_y1 c.roa_y1)),
   ("Revenue Year 2 (CHF)", .num (revenueY c.nnm_y2 c.roa_y2)),
   ("Revenue Year 3 (CHF)", .num (revenueY c.nnm_y3 c.roa_y3)),
   ("Total Revenue 3Y (CHF)", .num total_rev_3y),
   ("Profit Margin (%)", .num profit_margin_pct),
   ("Total Profit 3Y (CHF)", .num total_profit_3y),
   ("Score", .num score),
   ("AI Evaluation Notes", .str verdict)]

/-! ## Idempotent save (`_save_to_sheet_if_possible`, lines 1071-1090, and
the validation gate, lines 1023-1024, 1063-1069, 1143-1147) -/

/-- What the save routine reports to the user. -/
inductive SaveMsg
  | warnNoConnection          -- st.warning "Google Sheet connection not available."
  | infoAlreadySaved          -- st.info "Already saved. No duplicate entry created."
  | successSaved (why : String) -- st.success "Saved to Google Sheet ..."
  | errorSaving               -- st.error "Error saving to Google Sheet: ..."
deriving DecidableEq, Repr

/-- The session-scoped dedupe state plus the external sheet contents:
`last_sig` is `st.session_state["_last_sig"]`, `rows` the rows appended so
far by `append_in_header_order`. -/
structure SheetState where
  last_sig : Option (List (String × FieldVal))
  rows : List Record
deriving DecidableEq, Repr

structure SaveResult where
  state : SheetState
  returned : Bool
  msg : SaveMsg
deriving DecidableEq, Repr

/-- `_save_to_sheet_if_possible`.  `worksheet` is the truthiness of the
sheet handle; `append_ok` tells whether `append_in_header_order` succeeds
or raises (the external, at-least-once append call). -/
def _save_to_sheet_if_possible (worksheet : Bool) (append_ok : Bool)
    (state : SheetState) (data_dict : Record) (why : String) : SaveResult :=
  if ¬worksheet then ⟨state, false, .warnNoConnection⟩
  else
    let sig := _make_signature data_dict
    if state.last_sig = some sig then ⟨state, false, .infoAlreadySaved⟩
    else if append_ok then
      ⟨⟨some sig, state.rows ++ [data_dict]⟩, true, .successSaved why⟩
    else ⟨state, false, .errorSaving⟩

/-- `e.split("@")[-1]` on the character list: the suffix after the last
`'@'` (the whole list when no `'@'` occurs, as in Python). -/
def afterLastAt (l : List Char) : List Char :=
  (l.reverse.takeWhile (fun c => c ≠ '@')).reverse

/-- `_email_valid` (lines 1023-1024):
`"@" in e and "." in (e.split("@")[-1] if "@" in e else "")`,
modelled on the character list of the string. -/
def _email_valid (e : String) : Bool :=
  e.data.contains '@' &&
    (if e.data.contains '@' then afterLastAt e.data else []).contains '.'

def placeholderLocation : String := "— Select —"

/-- The list built by `_inputs_ok_for_save` (lines 1063-1069). -/
def missingFields (candidate_email candidate_location : String) : List String :=
  (if ¬_email_valid candidate_email then ["Candidate Email (valid)"] else []) ++
    (if candidate_location = placeholderLocation then ["Candidate Location"] else [])

/-- `_inputs_ok_for_save`: `(len(missing) == 0, ", ".join(missing))`. -/
def _inputs_ok_for_save (candidate_email candidate_location : String) : Bool × String :=
  ((missingFields candidate_email candidate_location).isEmpty,
   String.intercalate ", " (missingFields candidate_email candidate_location))

/-- Outcome of the manual-save action (lines 1143-1147): either the save
routine ran, or the action was refused with the validation error text. -/
inductive ManualOutcome
  | ran (r : SaveResult)
  | refused (errorText : String)
deriving DecidableEq, Repr

/-- The manual-save trigger: validation is checked first; only when it
passes is `_save_to_sheet_if_possible` invoked. -/
def manualSave (candidate_email candidate_location : String)
    (worksheet append_ok : Bool) (state : SheetState) (candidate_dict : Record) :
    SheetState × ManualOutcome :=
  let ok := _inputs_ok_for_save candidate_email candidate_location
  if ok.1 then
    let r := _save_to_sheet_if_possible worksheet append_ok state candidate_dict "manual"
    (r.state, .ran r)
  else
    (state, .refused ("Please complete the required fields: " ++ ok.2))

/-- The end-to-end example of the spec: years=7, AUM=260 in CH Onshore,
base=250000, bonus=150000, ROA=[1.2, 1.1, 1.0], 40 clients, NNM Y1=10. -/
def exampleCandidate : Candidate :=
  { candidate_name := "Jane Doe"
    candidate_email := "jane.doe@example.ch"
    current_role := "Senior RM"
    candidate_location := "Geneva"
    current_employer := "Bank A"
    current_market := "CH Onshore"
    currency := "CHF"
    years_experience := 7
    base_salary := 250000
    last_bonus := 150000
    current_number_clients := 40
    current_assets := 260
    nnm_y1 := 10
    nnm_y2 := 0
    nnm_y3 := 0
    roa_y1 := 12/10
    roa_y2 := 11/10
    roa_y3 := 1 }

/-- A prospect list whose best-case NNM sums to 10.5. -/
def exampleProspectsBest : List ℚ := [21/2]

/-- A full candidate dictionary whose Base Salary field is the parameter
`b`: the pair used to refute the 1e-6-noise claim of C3. -/
def noiseRecord (b : ℚ) : Record :=
  [("Timestamp", .str "2025-10-12 09:00:00"),
   ("Candidate Name", .str "Jane Doe"),
   ("Candidate Email", .str "jane.doe@example.ch"),
   ("Current Role", .str "Senior RM"),
   ("Candidate Location", .str "Geneva"),
   ("Current Employer", .str "Bank A"),
   ("Current Market", .str "CH Onshore"),
   ("Currency", .str "CHF"),
   ("Base Salary", .num b),
   ("Last Bonus", .num 150000),
   ("Current Number of Clients", .num 40),
   ("Current AUM (M CHF)", .num 260),
   ("NNM Year 1 (M CHF)", .num 10),
   ("NNM Year 2 (M CHF)", .num 0),
   ("NNM Year 3 (M CHF)", .num 0),
   ("Revenue Year 1 (CHF)", .num 120000),
   ("Revenue Year 2 (CHF)", .num 0),
   ("Revenue Year 3 (CHF)", .num 0),
   ("Total Revenue 3Y (CHF)", .num 120000),
   ("Profit Margin (%)", .num 22),
   ("Total Profit 3Y (CHF)", .num 26400),
   ("Score", .num 10),
   ("AI Evaluation Notes", .str "Strong")]

/-! ## Theorems -/

theorem sigFieldsSorted_is_sorted_sigFields :
    sigFieldsSorted.Perm sigFields ∧
      sigFieldsSorted.Pairwise (fun a b => a.data < b.data) := by
  constructor
  · decide
  · decide

/-! ## Helper lemmas -/

theorem dictGet_cons (p : String × FieldVal) (t : Record) (k : String) :
    dictGet (p :: t) k = if p.1 == k then p.2 else dictGet t k := by
  unfold dictGet
  rw [List.find?_cons]
  cases h : (p.1 == k) with
  | true => simp [h]
  | false => simp [h]

/-- Looking a key up in an association list is invariant under permutation
when the keys are pairwise distinct. -/
theorem dictGet_perm {l₁ l₂ : Record} (nd : (l₁.map Prod.fst).Nodup)
    (h : l₁.Perm l₂) (k : String) : dictGet l₁ k = dictGet l₂ k := by
  induction h with
  | nil => rfl
  | cons x h ih =>
      have nd' := (by simp only [List.map_cons, List.nodup_cons] at nd; exact nd.2 :
        (List.map Prod.fst _).Nodup)
      rw [dictGet_cons, dictGet_cons]
      cases x.1 == k with
      | true => rfl
      | false => simpa using ih nd'
  | swap x y l =>
      simp only [List.map_cons, List.nodup_cons, List.mem_cons] at nd
      have hxy : y.1 ≠ x.1 := fun hh => nd.1 (Or.inl hh)
      rw [dictGet_cons, dictGet_cons, dictGet_cons, dictGet_cons]
      by_cases h1 : y.1 = k
      · have h2 : (x.1 == k) = false := beq_eq_false_iff_ne.mpr (fun hh => hxy (h1.trans hh.symm))
        simp [h1, h2]
      · by_cases h2 : x.1 = k
        · simp [h2, beq_eq_false_iff_ne.mpr h1]
        · simp [beq_eq_false_iff_ne.mpr h1, beq_eq_false_iff_ne.mpr h2]
  | trans h₁ h₂ ih₁ ih₂ =>
      exact (ih₁ nd).trans (ih₂ (((h₁.map Prod.fst).nodup_iff).mp nd))

theorem dictGet_updateField_ne (r : Record) (k₀ k : String) (v : FieldVal)
    (h : k ≠ k₀) : dictGet (updateField r k₀ v) k = dictGet r k := by
  induction r with
  | nil => rfl
  | cons p t ih =>
      by_cases hp : p.1 = k₀
      · have h2 : (p.1 == k) = false := beq_eq_false_iff_ne.mpr (by rw [hp]; exact fun hh => h hh.symm)
        have h1 : (k₀ == k) = false := beq_eq_false_iff_ne.mpr (fun hh => h hh.symm)
        simp only [updateField, List.map_cons, if_pos hp, dictGet_cons, h1, h2, if_false,
          Bool.false_eq_true]
        simpa [updateField] using ih
      · simp only [updateField, List.map_cons, if_neg hp, dictGet_cons]
        cases p.1 == k with
        | true => simp
        | false => simpa [updateField] using ih

theorem dictGet_updateField_self (r : Record) (k₀ : String) (v : FieldVal)
    (h : k₀ ∈ r.map Prod.fst) : dictGet (updateField r k₀ v) k₀ = v := by
  induction r with
  | nil => simp at h
  | cons p t ih =>
      by_cases hp : p.1 = k₀
      · simp only [updateField, List.map_cons, if_pos hp, dictGet_cons]
        simp
      · have h' : k₀ ∈ t.map Prod.fst := by
          simp only [List.map_cons, List.mem_cons] at h
          exact h.resolve_left (fun hh => hp hh.symm)
        have hpk : (p.1 == k₀) = false := beq_eq_false_iff_ne.mpr hp
        simp only [updateField, List.map_cons, if_neg hp, dictGet_cons, hpk, if_false,
          Bool.false_eq_true]
        simpa [updateField] using ih h'

theorem updateField_not_mem (r : Record) (k : String) (v : FieldVal)
    (h : k ∉ r.map Prod.fst) : updateField r k v = r := by
  induction r with
  | nil => rfl
  | cons p t ih =>
      simp only [List.map_cons, List.mem_cons, not_or] at h
      simp only [updateField, List.map_cons] at ih ⊢
      rw [if_neg (fun hh => h.1 hh.symm), ih h.2]

/-- Signatures agree as soon as the canonicalized values of the twenty
signature fields agree. -/
theorem sig_congr {r₁ r₂ : Record}
    (h : ∀ k ∈ sigFieldsSorted,
      _canonicalize_number (dictGet r₁ k) = _canonicalize_number (dictGet r₂ k)) :
    _make_signature r₁ = _make_signature r₂ :=
  List.map_congr_left (fun k hk => by rw [h k hk])

/-- Evaluation rule for `round6` at concrete inputs. -/
theorem round6_eval (q : ℚ) (m : ℤ) (h₁ : (m : ℚ) ≤ q * 1000000 + 1/2)
    (h₂ : q * 1000000 + 1/2 < m + 1) :
    round6 q = (m : ℚ) / 1000000 := by
  unfold round6
  congr 1
  have : ⌊q * 1000000 + 1/2⌋ = m := Int.floor_eq_iff.mpr ⟨h₁, by exact_mod_cast h₂⟩
  exact_mod_cast this

/-- C1: the spec claims the end-to-end example (years 7, AUM 260 in CH
Onshore, base 250000, bonus 150000, ROA [1.2, 1.1, 1.0], 40 clients,
NNM Y1 10, prospects best-sum 10.5) yields total score 9 — refuted: the
scoring block awards 2+2+2+2+1+1 = 10 on this input. -/
theorem C1_counterexample :
    (computeScore exampleCandidate exampleProspectsBest).score ≠ 9 := by
  have h10 : (computeScore exampleCandidate exampleProspectsBest).score = 10 := by
    norm_num [computeScore, critList, exampleCandidate, exampleProspectsBest,
      experienceCrit, aumCrit, aum_min, compCrit, roaCrit, avg_roa, clientsCrit,
      prospectsCrit, tolerance_pct, best_sum, abs, max_def]
  rw [h10]; decide

/-- C1 (amended): on the end-to-end example input the scoring engine
returns total score 10 and verdict "Strong Candidate", and a second save
attempt with the identical record is skipped as a duplicate (one appended
row, already-saved notice, no error). -/
theorem C1_amended :
    (computeScore exampleCandidate exampleProspectsBest).score = 10 ∧
    verdictOf (computeScore exampleCandidate exampleProspectsBest).score =
      "🟢 Strong Candidate" ∧
    (let d := _build_data_dict exampleCandidate "2025-10-12 10:00:00"
        (computeScore exampleCandidate exampleProspectsBest).score
        (verdictOf (computeScore exampleCandidate exampleProspectsBest).score)
     let r1 := _save_to_sheet_if_possible true true ⟨none, []⟩ d "PDF generated"
     let r2 := _save_to_sheet_if_possible true true r1.state d "PDF generated"
     r1.returned = true ∧ r1.state.rows = [d] ∧
       r2.returned = false ∧ r2.msg = .infoAlreadySaved ∧ r2.state.rows = [d]) := by
  have h10 : (computeScore exampleCandidate exampleProspectsBest).score = 10 := by
    norm_num [computeScore, critList, exampleCandidate, exampleProspectsBest,
      experienceCrit, aumCrit, aum_min, compCrit, roaCrit, avg_roa, clientsCrit,
      prospectsCrit, tolerance_pct, best_sum, abs, max_def]
  refine ⟨h10, by rw [h10]; rfl, ?_⟩
  simp only [_save_to_sheet_if_possible]
  simp

/-- C4: saving twice in succession with an unchanged record appends
exactly one row: the first successful save stores the signature, and the
second attempt compares equal, skips the append, and reports the
already-saved notice (an info message, not an error). -/
theorem C4_save_idempotent (st : SheetState) (d : Record)
    (h : st.last_sig ≠ some (_make_signature d)) :
    let r1 := _save_to_sheet_if_possible true true st d "manual"
    let r2 := _save_to_sheet_if_possible true true r1.state d "manual"
    r1.returned = true ∧ r1.state.rows = st.rows ++ [d] ∧
      r1.state.last_sig = some (_make_signature d) ∧
      r2.returned = false ∧ r2.msg = .infoAlreadySaved ∧ r2.state = r1.state := by
  simp only [_save_to_sheet_if_possible]
  rw [if_neg h]
  simp

theorem C4_witness :
    ((⟨none, []⟩ : SheetState).last_sig ≠ some (_make_signature []) ∧
     (let r1 := _save_to_sheet_if_possible true true ⟨none, []⟩ [] "manual"
      let r2 := _save_to_sheet_if_possible true true r1.state [] "manual"
      r1.returned = true ∧ r1.state.rows = [] ++ [[]] ∧
        r1.state.last_sig = some (_make_signature []) ∧
        r2.returned = false ∧ r2.msg = .infoAlreadySaved ∧ r2.state = r1.state)) :=
  ⟨by simp, C4_save_idempotent ⟨none, []⟩ [] (by simp)⟩

/-- C5: when the external append raises, the error is caught and
reported, the stored last-saved signature and the sheet are left
unchanged, and a retry of the same record is not treated as a duplicate:
it attempts the append again and succeeds. -/
theorem C5_failed_append (st : SheetState) (d : Record) (why : String)
    (h : st.last_sig ≠ some (_make_signature d)) :
    let rFail := _save_to_sheet_if_possible true false st d why
    rFail.state = st ∧ rFail.returned = false ∧ rFail.msg = .errorSaving ∧
      (let rRetry := _save_to_sheet_if_possible true true rFail.state d why
       rRetry.returned = true ∧ rRetry.state.rows = st.rows ++ [d] ∧
         rRetry.state.last_sig = some (_make_signature d)) := by
  have hFail : _save_to_sheet_if_possible true false st d why = ⟨st, false, .errorSaving⟩ := by
    simp only [_save_to_sheet_if_possible]
    rw [if_neg h]
    simp
  have hOk : _save_to_sheet_if_possible true true st d why =
      ⟨⟨some (_make_signature d), st.rows ++ [d]⟩, true, .successSaved why⟩ := by
    simp only [_save_to_sheet_if_possible]
    rw [if_neg h]
    simp
  simp only [hFail, hOk]
  simp

theorem C5_witness :
    ((⟨none, []⟩ : SheetState).last_sig ≠ some (_make_signature []) ∧
     (let rFail := _save_to_sheet_if_possible true false ⟨none, []⟩ [] "manual"
      rFail.state = ⟨none, []⟩ ∧ rFail.returned = false ∧ rFail.msg = .errorSaving ∧
        (let rRetry := _save_to_sheet_if_possible true true rFail.state [] "manual"
         rRetry.returned = true ∧ rRetry.state.rows = [] ++ [[]] ∧
           rRetry.state.last_sig = some (_make_signature [])))) :=
  ⟨by simp, C5_failed_append ⟨none, []⟩ [] "manual" (by simp)⟩

/-- Updating a field outside the signature field list never changes the
signature. -/
theorem sig_updateField_excluded (r : Record) (k : String) (v : FieldVal)
    (h : k ∉ sigFieldsSorted) :
    _make_signature (updateField r k v) = _make_signature r :=
  sig_congr (fun k' hk' =>
    by rw [dictGet_updateField_ne _ _ _ _ (fun he => h (by rw [← he]; exact hk'))])

/-- C6: a record with an invalid email (no "@" with a "." after it) or
the placeholder location is refused before the save routine runs: for
every sheet state and record the dedupe state is unchanged, no append
happens, no signature is computed or compared, and the refusal enumerates
the missing fields (a nonempty list). -/
theorem C6_validation_gate (email loc : String) (worksheet append_ok : Bool)
    (st : SheetState) (d : Record)
    (h : _email_valid email = false ∨ loc = placeholderLocation) :
    manualSave email loc worksheet append_ok st d =
      (st, .refused ("Please complete the required fields: " ++
        String.intercalate ", " (missingFields email loc))) ∧
    missingFields email loc ≠ [] := by
  have hnil : missingFields email loc ≠ [] := by
    rcases h with h | h
    · simp [missingFields, h]
    · simp [missingFields, h]
  have hne : (missingFields email loc).isEmpty = false :=
    List.isEmpty_eq_false.mpr hnil
  refine ⟨?_, hnil⟩
  simp [manualSave, _inputs_ok_for_save, hne]

theorem C6_witness :
    (_email_valid "invalid-email" = false ∨ "Geneva" = placeholderLocation) ∧
    manualSave "invalid-email" "Geneva" true true ⟨none, []⟩ [] =
      (⟨none, []⟩, .refused ("Please complete the required fields: " ++
        String.intercalate ", " (missingFields "invalid-email" "Geneva"))) ∧
    missingFields "invalid-email" "Geneva" ≠ [] :=
  ⟨Or.inl (by decide),
   (C6_validation_gate "invalid-email" "Geneva" true true ⟨none, []⟩ []
     (Or.inl (by decide))).1,
   (C6_validation_gate "invalid-email" "Geneva" true true ⟨none, []⟩ []
     (Or.inl (by decide))).2⟩

/-- C9: the signature field list excludes "Score" (as well as
"Timestamp" and "AI Evaluation Notes"); records differing only in the
Score field have identical signatures, so a change of the computed score
never by itself produces a new appended row: re-saving after a Score
change is skipped as already saved. -/
theorem C9_score_not_in_signature :
    ("Score" ∉ sigFields ∧ "Timestamp" ∉ sigFields ∧
      "AI Evaluation Notes" ∉ sigFields) ∧
    (∀ (r : Record) (v : FieldVal),
      _make_signature (updateField r "Score" v) = _make_signature r) ∧
    (∀ (st : SheetState) (d : Record) (v : FieldVal) (why : String),
      st.last_sig ≠ some (_make_signature d) →
      (let r1 := _save_to_sheet_if_possible true true st d why
       let r2 := _save_to_sheet_if_possible true true r1.state
         (updateField d "Score" v) why
       r1.returned = true ∧ r2.returned = false ∧ r2.msg = .infoAlreadySaved ∧
         r2.state.rows = st.rows ++ [d])) := by
  have hsig : ∀ (r : Record) (v : FieldVal),
      _make_signature (updateField r "Score" v) = _make_signature r :=
    fun r v => sig_updateField_excluded r "Score" v (by decide)
  refine ⟨⟨by decide, by decide, by decide⟩, hsig, ?_⟩
  intro st d v why h
  have hOk : _save_to_sheet_if_possible true true st d why =
      ⟨⟨some (_make_signature d), st.rows ++ [d]⟩, true, .successSaved why⟩ := by
    simp only [_save_to_sheet_if_possible]
    rw [if_neg h]
    simp
  have hSkip : _save_to_sheet_if_possible true true
      ⟨some (_make_signature d), st.rows ++ [d]⟩ (updateField d "Score" v) why =
      ⟨⟨some (_make_signature d), st.rows ++ [d]⟩, false, .infoAlreadySaved⟩ := by
    simp only [_save_to_sheet_if_possible, hsig]
    simp
  simp only [hOk, hSkip]
  simp

theorem C9_witness :
    ((⟨none, []⟩ : SheetState).last_sig ≠
        some (_make_signature [("Score", FieldVal.num 5)]) ∧
     (let r1 := _save_to_sheet_if_possible true true ⟨none, []⟩
        [("Score", FieldVal.num 5)] "manual"
      let r2 := _save_to_sheet_if_possible true true r1.state
        (updateField [("Score", FieldVal.num 5)] "Score" (FieldVal.num 9)) "manual"
      r1.returned = true ∧ r2.returned = false ∧ r2.msg = .infoAlreadySaved ∧
        r2.state.rows = [] ++ [[("Score", FieldVal.num 5)]])) :=
  ⟨by simp,
   (C9_score_not_in_signature.2.2 ⟨none, []⟩ [("Score", FieldVal.num 5)]
     (FieldVal.num 9) "manual" (by simp))⟩

theorem experienceCrit_delta_bounds (y : ℕ) :
    0 ≤ (experienceCrit y).delta ∧ (experienceCrit y).delta ≤ 2 := by
  unfold experienceCrit; split_ifs <;> simp

theorem aumCrit_delta_bounds (m : String) (a : ℚ) :
    0 ≤ (aumCrit m a).delta ∧ (aumCrit m a).delta ≤ 2 := by
  unfold aumCrit; split_ifs <;> simp

theorem compCrit_delta_bounds (b l : ℚ) :
    -1 ≤ (compCrit b l).delta ∧ (compCrit b l).delta ≤ 2 := by
  unfold compCrit; split_ifs <;> simp

theorem roaCrit_delta_bounds (a : ℚ) :
    0 ≤ (roaCrit a).delta ∧ (roaCrit a).delta ≤ 2 := by
  unfold roaCrit; split_ifs <;> simp

theorem clientsCrit_delta_bounds (n : ℕ) :
    0 ≤ (clientsCrit n).delta ∧ (clientsCrit n).delta ≤ 1 := by
  unfold clientsCrit; split_ifs <;> simp

theorem prospectsCrit_delta_bounds (n b : ℚ) :
    0 ≤ (prospectsCrit n b).delta ∧ (prospectsCrit n b).delta ≤ 1 := by
  unfold prospectsCrit; split_ifs <;> simp

theorem computeScore_score_eq (c : Candidate) (pb : List ℚ) :
    (computeScore c pb).score =
      (experienceCrit c.years_experience).delta +
      (aumCrit c.current_market c.current_assets).delta +
      (compCrit c.base_salary c.last_bonus).delta +
      (roaCrit (avg_roa c)).delta +
      (clientsCrit c.current_number_clients).delta +
      (prospectsCrit c.nnm_y1 (best_sum pb)).delta := by
  simp [computeScore, critList]
  ring

/-- C10: for every candidate and prospect list the total score lies
between -1 and 10 inclusive (the six criteria award at most
2+2+2+2+1+1 = 10, and only the low-compensation branch subtracts 1). -/
theorem C10_score_bounds (c : Candidate) (pb : List ℚ) :
    -1 ≤ (computeScore c pb).score ∧ (computeScore c pb).score ≤ 10 := by
  obtain ⟨h1, h2⟩ := experienceCrit_delta_bounds c.years_experience
  obtain ⟨h3, h4⟩ := aumCrit_delta_bounds c.current_market c.current_assets
  obtain ⟨h5, h6⟩ := compCrit_delta_bounds c.base_salary c.last_bonus
  obtain ⟨h7, h8⟩ := roaCrit_delta_bounds (avg_roa c)
  obtain ⟨h9, h10⟩ := clientsCrit_delta_bounds c.current_number_clients
  obtain ⟨h11, h12⟩ := prospectsCrit_delta_bounds c.nnm_y1 (best_sum pb)
  rw [computeScore_score_eq]
  omega

/-- C8: the verdict tier is a function of the total score alone:
score ≥ 7 gives the Strong verdict, 4 ≤ score ≤ 6 the Medium verdict and
score < 4 the Weak verdict. -/
theorem C8_verdict_tiers (s : Int) :
    (s ≥ 7 → verdictOf s = "🟢 Strong Candidate") ∧
    (4 ≤ s ∧ s ≤ 6 → verdictOf s = "🟡 Medium Potential") ∧
    (s < 4 → verdictOf s = "🔴 Weak Candidate") := by
  unfold verdictOf
  refine ⟨fun h => if_pos h, fun h => ?_, fun h => ?_⟩
  · rw [if_neg (by omega), if_pos h.1]
  · rw [if_neg (by omega), if_neg (by omega)]

theorem C8_witness :
    ((8:Int) ≥ 7 ∧ verdictOf 8 = "🟢 Strong Candidate") ∧
    ((4 ≤ (5:Int) ∧ (5:Int) ≤ 6) ∧ verdictOf 5 = "🟡 Medium Potential") ∧
    ((2:Int) < 4 ∧ verdictOf 2 = "🔴 Weak Candidate") :=
  ⟨⟨by norm_num, (C8_verdict_tiers 8).1 (by norm_num)⟩,
   ⟨⟨by norm_num, by norm_num⟩, (C8_verdict_tiers 5).2.1 ⟨by norm_num, by norm_num⟩⟩,
   ⟨by norm_num, (C8_verdict_tiers 2).2.2 (by norm_num)⟩⟩

/-- C2: the spec claims that in the "CH Onshore" market the AUM
criterion awards +2 only when AUM reaches the stricter 250M tier —
refuted: AUM = 200 < 250 already receives +2 (the 250M test only selects
the reason message). -/
theorem C2_counterexample :
    (aumCrit "CH Onshore" 200).delta = 2 ∧ ¬((200 : ℚ) ≥ 250) := by
  constructor
  · norm_num [aumCrit, aum_min]
  · norm_num

/-- C2 (amended): every market, including CH Onshore, has AUM threshold
200M; at or above it the criterion awards +2 (the CH Onshore 250M test
only chooses between two positive messages); below it no points are
awarded and the shortfall max(0, threshold - actual) is recorded as a
negative reason. -/
theorem C2_amended (market : String) (assets : ℚ) :
    aum_min market = 200 ∧
    (assets ≥ aum_min market → (aumCrit market assets).delta = 2) ∧
    (assets < aum_min market →
      (aumCrit market assets).delta = 0 ∧
      (aumCrit market assets).neg = [.aumShortfall (max 0 (aum_min market - assets))]) := by
  refine ⟨?_, fun h => ?_, fun h => ?_⟩
  · unfold aum_min; split_ifs <;> rfl
  · unfold aumCrit; rw [if_pos h]; split_ifs <;> rfl
  · unfold aumCrit; rw [if_neg (by exact not_le.mpr h)]; exact ⟨rfl, rfl⟩

theorem C2_witness :
    ((250 : ℚ) ≥ aum_min "CH Onshore" ∧ (aumCrit "CH Onshore" 250).delta = 2) ∧
    ((150 : ℚ) < aum_min "UK" ∧ (aumCrit "UK" 150).delta = 0 ∧
      (aumCrit "UK" 150).neg = [.aumShortfall (max 0 (aum_min "UK" - 150))]) :=
  ⟨⟨by norm_num [aum_min], (C2_amended "CH Onshore" 250).2.1 (by norm_num [aum_min])⟩,
   ⟨by norm_num [aum_min],
    ((C2_amended "UK" 150).2.2 (by norm_num [aum_min])).1,
    ((C2_amended "UK" 150).2.2 (by norm_num [aum_min])).2⟩⟩

/-- C7: the prospect-consistency criterion compares the sum of the
prospects best-case NNM with the declared Year-1 NNM: both exactly zero
records a flag with no score change; an absolute difference within
tolerance percent of max(NNM Y1, 1e-9) adds +1 with a positive reason;
otherwise a negative reason showing the deviation is recorded. -/
theorem C7_prospects_consistency (nnm : ℚ) (prospects_best : List ℚ) :
    (nnm = 0 ∧ best_sum prospects_best = 0 →
      prospectsCrit nnm (best_sum prospects_best) = { flag := [.prospectsBothZero] }) ∧
    (¬(nnm = 0 ∧ best_sum prospects_best = 0) →
      |best_sum prospects_best - nnm| ≤ (tolerance_pct / 100) * max nnm (1/1000000000) →
      prospectsCrit nnm (best_sum prospects_best) =
        { delta := 1, pos := [.prospectsConsistent (best_sum prospects_best) nnm] }) ∧
    (¬(nnm = 0 ∧ best_sum prospects_best = 0) →
      ¬(|best_sum prospects_best - nnm| ≤ (tolerance_pct / 100) * max nnm (1/1000000000)) →
      prospectsCrit nnm (best_sum prospects_best) =
        { neg := [.prospectsDeviation (best_sum prospects_best) nnm] }) := by
  refine ⟨fun h => ?_, fun h1 h2 => ?_, fun h1 h2 => ?_⟩
  · unfold prospectsCrit; rw [if_pos h]
  · unfold prospectsCrit; rw [if_neg h1, if_pos h2]
  · unfold prospectsCrit; rw [if_neg h1, if_neg h2]

theorem C7_witness :
    (((0:ℚ) = 0 ∧ best_sum [] = 0) ∧
      prospectsCrit 0 (best_sum []) = { flag := [.prospectsBothZero] }) ∧
    ((¬((10:ℚ) = 0 ∧ best_sum [21/2] = 0) ∧
        |best_sum [21/2] - 10| ≤ (tolerance_pct / 100) * max 10 (1/1000000000)) ∧
      prospectsCrit 10 (best_sum [21/2]) =
        { delta := 1, pos := [.prospectsConsistent (best_sum [21/2]) 10] }) ∧
    ((¬((10:ℚ) = 0 ∧ best_sum [20] = 0) ∧
        ¬(|best_sum [20] - 10| ≤ (tolerance_pct / 100) * max 10 (1/1000000000))) ∧
      prospectsCrit 10 (best_sum [20]) =
        { neg := [.prospectsDeviation (best_sum [20]) 10] }) :=
  ⟨⟨⟨rfl, by simp [best_sum]⟩,
    (C7_prospects_consistency 0 []).1 ⟨rfl, by simp [best_sum]⟩⟩,
   ⟨⟨by norm_num [best_sum], by norm_num [best_sum, tolerance_pct, abs, max_def]⟩,
    (C7_prospects_consistency 10 [21/2]).2.1 (by norm_num [best_sum])
      (by norm_num [best_sum, tolerance_pct, abs, max_def])⟩,
   ⟨⟨by norm_num [best_sum], by norm_num [best_sum, tolerance_pct, abs, max_def]⟩,
    (C7_prospects_consistency 10 [20]).2.2 (by norm_num [best_sum])
      (by norm_num [best_sum, tolerance_pct, abs, max_def])⟩⟩

/-- C3: the spec claims the signature is invariant under float noise
below 1e-6 in numeric fields — refuted: two records identical except for
Base Salary values 100000.0000004 and 100000.0000006 (difference 2e-7)
round to different 6-decimal canonical values and so get different
signatures. -/
theorem C3_counterexample :
    noiseRecord (100000 + 6/10000000) =
      updateField (noiseRecord (100000 + 4/10000000)) "Base Salary"
        (.num (100000 + 6/10000000)) ∧
    |(100000 + 6/10000000 : ℚ) - (100000 + 4/10000000)| < 1/1000000 ∧
    _make_signature (noiseRecord (100000 + 4/10000000)) ≠
      _make_signature (noiseRecord (100000 + 6/10000000)) := by
  refine ⟨?_, ?_, ?_⟩
  · simp [noiseRecord, updateField]
  · rw [abs_of_nonneg (by norm_num)]
    norm_num
  · intro heq
    have h := List.map_inj_left.mp heq "Base Salary" (by decide)
    have h1 : dictGet (noiseRecord (100000 + 4/10000000)) "Base Salary" =
        .num (100000 + 4/10000000) := by
      simp [noiseRecord, dictGet_cons]
    have h2 : dictGet (noiseRecord (100000 + 6/10000000)) "Base Salary" =
        .num (100000 + 6/10000000) := by
      simp [noiseRecord, dictGet_cons]
    rw [h1, h2] at h
    simp only [_canonicalize_number, Prod.mk.injEq, FieldVal.num.injEq, true_and] at h
    rw [round6_eval (100000 + 4/10000000) 100000000000 (by norm_num) (by norm_num),
        round6_eval (100000 + 6/10000000) 100000000001 (by norm_num) (by norm_num)] at h
    norm_num at h

/-- C3 (amended): the signature is invariant under re-ordering of the
supplied fields (distinct keys), under numeric perturbations that leave
the 6-decimal rounding unchanged (instead of all noise below 1e-6), and
under changes to the Timestamp or AI Evaluation Notes fields; each
numeric field is canonicalized by rounding to 6 decimal places. -/
theorem C3_amended :
    (∀ l₁ l₂ : Record, (l₁.map Prod.fst).Nodup → l₁.Perm l₂ →
      _make_signature l₁ = _make_signature l₂) ∧
    (∀ (r : Record) (k : String) (q q' : ℚ), round6 q = round6 q' →
      _make_signature (updateField r k (.num q)) =
        _make_signature (updateField r k (.num q'))) ∧
    (∀ (r : Record) (v : FieldVal),
      _make_signature (updateField r "Timestamp" v) = _make_signature r) ∧
    (∀ (r : Record) (v : FieldVal),
      _make_signature (updateField r "AI Evaluation Notes" v) = _make_signature r) ∧
    (∀ q : ℚ, _canonicalize_number (.num q) = .num (round6 q)) := by
  refine ⟨?_, ?_, ?_, ?_, fun q => rfl⟩
  · intro l₁ l₂ nd hp
    exact sig_congr (fun k _ => by rw [dictGet_perm nd hp k])
  · intro r k q q' h
    by_cases hm : k ∈ r.map Prod.fst
    · refine sig_congr (fun k' hk' => ?_)
      by_cases he : k' = k
      · subst he
        rw [dictGet_updateField_self _ _ _ hm, dictGet_updateField_self _ _ _ hm]
        simp [_canonicalize_number, h]
      · rw [dictGet_updateField_ne _ _ _ _ he, dictGet_updateField_ne _ _ _ _ he]
    · rw [updateField_not_mem _ _ _ hm, updateField_not_mem _ _ _ hm]
  · exact fun r v => sig_updateField_excluded r "Timestamp" v (by decide)
  · exact fun r v => sig_updateField_excluded r "AI Evaluation Notes" v (by decide)

theorem C3_witness :
    ((([(("Candidate Name" : String), FieldVal.str "A"),
        (("Currency" : String), FieldVal.str "CHF")] : Record).map Prod.fst).Nodup ∧
     ([(("Candidate Name" : String), FieldVal.str "A"),
       (("Currency" : String), FieldVal.str "CHF")] : Record).Perm
       [("Currency", FieldVal.str "CHF"), ("Candidate Name", FieldVal.str "A")] ∧
     _make_signature [("Candidate Name", FieldVal.str "A"),
                      ("Currency", FieldVal.str "CHF")] =
       _make_signature [("Currency", FieldVal.str "CHF"),
                        ("Candidate Name", FieldVal.str "A")]) ∧
    (round6 (4/10000000) = round6 0 ∧
     _make_signature (updateField [("Base Salary", FieldVal.num 1)] "Base Salary"
        (.num (4/10000000))) =
       _make_signature (updateField [("Base Salary", FieldVal.num 1)] "Base Salary"
        (.num 0))) :=
  ⟨⟨by decide,
    List.Perm.swap ("Currency", FieldVal.str "CHF") ("Candidate Name", FieldVal.str "A") [],
    C3_amended.1 _ _ (by decide)
      (List.Perm.swap ("Currency", FieldVal.str "CHF") ("Candidate Name", FieldVal.str "A") [])⟩,
   ⟨by rw [round6_eval (4/10000000) 0 (by norm_num) (by norm_num),
           round6_eval 0 0 (by norm_num) (by norm_num)],
    C3_amended.2.1 [("Base Salary", FieldVal.num 1)] "Base Salary" (4/10000000) 0
      (by rw [round6_eval (4/10000000) 0 (by norm_num) (by norm_num),
              round6_eval 0 0 (by norm_num) (by norm_num)])⟩⟩
